import Mathlib

/-!
Shallow embedding of `opera.js` (class `OperaWebDriverInstaller` from the
webdriver-installer project), together with proofs about its behaviour.

The file models the pure control flow of the four async methods of the
class.  All interaction with the outside world (subprocess execution,
macOS bundle inspection, Windows EXE metadata, the GitHub tag API and the
final `InstallerUtils.installBinary` call) is represented by an explicit
environment of oracles (`Env`) plus a trace of the external effects a call
performs (`List Effect`).  JavaScript strings are modelled by `String`,
JavaScript `null`/`undefined` results by `Option String`, and thrown
errors by `Except String`.
-/

/-- Truthiness of a JavaScript value that is either a string or
`null`/`undefined`: `null`, `undefined` and the empty string are falsy. -/
def jsTruthy : Option String → Bool
  | none => false
  | some s => !(s == "")

/-- Splits a character list at every character satisfying `p`, keeping
empty chunks, exactly like JavaScript `String.prototype.split` with a
single-character separator keeps empty fields. -/
def splitPredList (p : Char → Bool) : List Char → List (List Char)
  | [] => [[]]
  | x :: xs =>
    match splitPredList p xs with
    | [] => [[]]
    | g :: gs => if p x then [] :: g :: gs else (x :: g) :: gs

/-- Models JavaScript `s.split(c)` for a one-character separator `c`:
splits at every occurrence of `c`, keeping empty fields. -/
def jsSplit (c : Char) (s : String) : List String :=
  (splitPredList (fun x => x == c) s.data).map (fun g => (⟨g⟩ : String))

/-- Models JavaScript `s.trim()`: removes leading and trailing whitespace
(for the ASCII whitespace characters relevant here). -/
def jsTrim (s : String) : String :=
  ⟨((s.data.dropWhile Char.isWhitespace).reverse.dropWhile Char.isWhitespace).reverse⟩

/-- Whitespace-delimited tokens of a string (split on whitespace, empty
fields dropped).  This is a specification-side notion used to compare the
spec's wording "whitespace-delimited token" with what the code computes. -/
def wsTokens (s : String) : List String :=
  ((splitPredList Char.isWhitespace s.data).filter (fun g => !(g.isEmpty))).map
    (fun g => (⟨g⟩ : String))

/-- Models `path.join(a, b)` from Node for the simple case used by the
source (a directory path without a trailing separator): joins with the
platform separator. -/
def pathJoin (osp a b : String) : String :=
  let sep := if osp = "win32" then "\\" else "/"
  if a = "" then b else a ++ sep ++ b

/-- Models `tag.replace(/^v\.?/, '')` from `getBestDriverVersion`: the
regex matches a leading `"v"` optionally followed by `"."` (greedily, so a
leading `"v."` is removed whole), and the first match is replaced by the
empty string; a string not starting with `"v"` is unchanged. -/
def replaceLeadingVDot (s : String) : String :=
  if s.data.take 2 = ['v', '.'] then ⟨s.data.drop 2⟩
  else if s.data.take 1 = ['v'] then ⟨s.data.drop 1⟩
  else s

/-- The argument record of a call to `InstallerUtils.installBinary`. -/
structure InstallBinaryCall where
  archiveUrl : String
  nameInArchive : String
  outputName : String
  outputDirectory : String
  isZip : Bool
deriving DecidableEq

/-- One externally observable effect of a method of the installer class.
Running a subprocess, inspecting a macOS bundle and reading Windows EXE
metadata are local probes; `fetchLatestGitHubTag` is a network request and
`installBinary` performs both a network download and a filesystem write. -/
inductive Effect where
  | runCommand (argv : List String)
  | macAppVersion (appName : String)
  | windowsExeVersion (path : String)
  | fetchLatestGitHubTag (repo : String)
  | installBinary (call : InstallBinaryCall)
deriving DecidableEq

/-- The oracle environment for the external collaborators of `opera.js`
(`InstallerUtils` and `os.userInfo()`), which are outside this source
file.  `commandOutput` models `InstallerUtils.getCommandOutputOrNullIfMissing`
(`none` when the command is missing or exits non-zero, otherwise the raw
stdout text); `macAppVersion` models `InstallerUtils.getMacAppVersion`;
`windowsExeVersion` models `InstallerUtils.getWindowsExeVersion`;
`latestGitHubTag` models a successful `InstallerUtils.fetchLatestGitHubTag`
response; `username` models `os.userInfo().username`. -/
structure Env where
  macAppVersion : String → Option String
  commandOutput : List String → Option String
  windowsExeVersion : String → Option String
  latestGitHubTag : String → String
  username : String

/-- The argv of the Snap probe in the Linux branch of
`getInstalledBrowserVersion`. -/
def linuxSnapArgv : List String := ["/snap/bin/opera", "--version"]

/-- The argv of the PATH fallback probe in the Linux branch of
`getInstalledBrowserVersion`. -/
def linuxPathArgv : List String := ["opera", "--version"]

/-- First well-known Windows install path probed by
`getInstalledBrowserVersion`. -/
def winPath1 : String := "C:\\Program Files\\Opera\\opera.exe"

/-- Second well-known Windows install path probed by
`getInstalledBrowserVersion`. -/
def winPath2 : String := "C:\\Program Files (x86)\\Opera\\opera.exe"

/-- Third, per-user Windows install path probed by
`getInstalledBrowserVersion`; interpolates `os.userInfo().username`. -/
def winPath3 (username : String) : String :=
  "C:\\Users\\" ++ username ++ "\\AppData\\Local\\Programs\\Opera\\opera.exe"

/-- Models `version ? version.trim().split(' ')[0] : null` from the Linux
branch of `getInstalledBrowserVersion`. -/
def jsFirstSpaceField (v : Option String) : Option String :=
  match v with
  | none => none
  | some s => if s = "" then none else some ((jsSplit ' ' (jsTrim s)).headD "")

/-- Embedding of `OperaWebDriverInstaller.getInstalledBrowserVersion`:
result (a thrown error or an optional version string) together with the
trace of external probes performed, in order. -/
def getInstalledBrowserVersion (osp : String) (env : Env) :
    Except String (Option String) × List Effect :=
  if osp = "darwin" then
    let a := env.macAppVersion "Opera"
    if jsTruthy a then
      (Except.ok a, [Effect.macAppVersion "Opera"])
    else
      (Except.ok (env.macAppVersion "Opera Stable"),
       [Effect.macAppVersion "Opera", Effect.macAppVersion "Opera Stable"])
  else if osp = "linux" then
    let snap := env.commandOutput linuxSnapArgv
    if jsTruthy snap then
      (Except.ok (jsFirstSpaceField snap), [Effect.runCommand linuxSnapArgv])
    else
      (Except.ok (jsFirstSpaceField (env.commandOutput linuxPathArgv)),
       [Effect.runCommand linuxSnapArgv, Effect.runCommand linuxPathArgv])
  else if osp = "win32" then
    let v1 := env.windowsExeVersion winPath1
    if jsTruthy v1 then
      (Except.ok v1, [Effect.windowsExeVersion winPath1])
    else
      let v2 := env.windowsExeVersion winPath2
      if jsTruthy v2 then
        (Except.ok v2,
         [Effect.windowsExeVersion winPath1, Effect.windowsExeVersion winPath2])
      else
        let v3 := env.windowsExeVersion (winPath3 env.username)
        if jsTruthy v3 then
          (Except.ok v3,
           [Effect.windowsExeVersion winPath1, Effect.windowsExeVersion winPath2,
            Effect.windowsExeVersion (winPath3 env.username)])
        else
          (Except.ok (env.windowsExeVersion "opera.exe"),
           [Effect.windowsExeVersion winPath1, Effect.windowsExeVersion winPath2,
            Effect.windowsExeVersion (winPath3 env.username),
            Effect.windowsExeVersion "opera.exe"])
  else
    (Except.error ("Unsupported platform: " ++ osp), [])

/-- Embedding of `OperaWebDriverInstaller.getInstalledDriverVersion`:
builds the driver path inside `outputDirectory` (with `.exe` appended on
Windows), runs it with `--version`, and if output is produced returns the
element at index 1 of the trimmed output split on single spaces. -/
def getInstalledDriverVersion (osp : String) (env : Env) (outputDirectory : String) :
    Option String × List Effect :=
  let outputPath0 := pathJoin osp outputDirectory "operadriver"
  let outputPath := if osp = "win32" then outputPath0 ++ ".exe" else outputPath0
  let output := env.commandOutput [outputPath, "--version"]
  (match output with
   | none => none
   | some s => if s = "" then none else (jsSplit ' ' (jsTrim s))[1]?,
   [Effect.runCommand [outputPath, "--version"]])

/-- Embedding of `OperaWebDriverInstaller.getBestDriverVersion`: fetches
the latest GitHub tag of the fixed repository
`operasoftware/operachromiumdriver` and strips a leading `v`/`v.` from it;
the `browserVersion` argument is accepted but unused. -/
def getBestDriverVersion (env : Env) (_browserVersion : String) :
    String × List Effect :=
  let tag := env.latestGitHubTag "operasoftware/operachromiumdriver"
  (replaceLeadingVDot tag,
   [Effect.fetchLatestGitHubTag "operasoftware/operachromiumdriver"])

/-- The shared tail of `OperaWebDriverInstaller.install`, after the
platform tag and binary name have been resolved: builds the archive URL,
the in-archive entry path and the output name and delegates to
`InstallerUtils.installBinary`. -/
def installResolved (osp platform binaryName driverVersion outputDirectory : String) :
    Except String InstallBinaryCall × List Effect :=
  let archiveUrl :=
    "https://github.com/operasoftware/operachromiumdriver/releases/download/v." ++
      driverVersion ++ "/operadriver_" ++ platform ++ ".zip"
  let nameInArchive := "operadriver_" ++ platform ++ "/" ++ binaryName
  let outputName := "operadriver" ++ (if osp = "win32" then ".exe" else "")
  let call : InstallBinaryCall :=
    ⟨archiveUrl, nameInArchive, outputName, outputDirectory, true⟩
  (Except.ok call, [Effect.installBinary call])

/-- Embedding of `OperaWebDriverInstaller.install`: dispatches on the host
OS to a platform tag and binary name, then delegates to
`InstallerUtils.installBinary`; unsupported platforms throw before any
effect is performed. -/
def install (osp driverVersion outputDirectory : String) :
    Except String InstallBinaryCall × List Effect :=
  if osp = "linux" then
    installResolved osp "linux64" "operadriver" driverVersion outputDirectory
  else if osp = "darwin" then
    installResolved osp "mac64" "operadriver" driverVersion outputDirectory
  else if osp = "win32" then
    installResolved osp "win64" ("operadriver" ++ ".exe") driverVersion outputDirectory
  else
    (Except.error ("Unsupported platform: " ++ osp), [])

/-- The argv with which `getInstalledDriverVersion` runs the installed
driver: the driver path inside the output directory (with `.exe` appended
on Windows) followed by `--version`. -/
def driverArgv (osp od : String) : List String :=
  [(if osp = "win32" then pathJoin osp od "operadriver" ++ ".exe"
    else pathJoin osp od "operadriver"),
   "--version"]

/-- An environment in which every probe fails and the tag oracle returns a
fixed tag; used to build concrete environments for evaluation. -/
def emptyEnv : Env where
  macAppVersion := fun _ => none
  commandOutput := fun _ => none
  windowsExeVersion := fun _ => none
  latestGitHubTag := fun _ => ""
  username := "user"

/-- Environment whose command probe answers the Snap probe with a version
string that contains a tab between its fields. -/
def c4CexEnv : Env :=
  { emptyEnv with
    commandOutput := fun argv =>
      if argv = linuxSnapArgv then some "Opera\t114.0.5735.90" else none }

/-- Environment whose command probe answers the Snap probe with a plain
version string. -/
def c4WitnessEnv : Env :=
  { emptyEnv with
    commandOutput := fun argv =>
      if argv = linuxSnapArgv then some "114.0.5735.90" else none }

/-- Environment in which the installed driver's `--version` output
separates its fields with a tab instead of a space. -/
def c3CexEnv : Env :=
  { emptyEnv with
    commandOutput := fun argv =>
      if argv = ["out/operadriver", "--version"] then some "operadriver\t1.2.3"
      else none }

/-- Environment in which the installed driver's `--version` output has the
documented shape with single spaces. -/
def c3WitnessEnv : Env :=
  { emptyEnv with
    commandOutput := fun argv =>
      if argv = ["out/operadriver", "--version"] then
        some "operadriver 114.0.5735.90 (abcd1234)"
      else none }

/-- Environment in which the installed driver's `--version` output is a
single token with no space. -/
def c10WitnessEnv : Env :=
  { emptyEnv with
    commandOutput := fun argv =>
      if argv = ["out/operadriver", "--version"] then some "operadriver" else none }

/-- Environment in which only the second well-known Windows install path
has a version resource. -/
def c7WitnessEnv : Env :=
  { emptyEnv with
    windowsExeVersion := fun p => if p = winPath2 then some "100.0.4815.76" else none }

/-- Environment in which the macOS bundle `Opera` reports a version. -/
def c8WitnessEnv : Env :=
  { emptyEnv with
    macAppVersion := fun name => if name = "Opera" then some "95.0.4635.25" else none }

/-- Associativity of string concatenation (helper). -/
theorem string_append_assoc (a b c : String) : (a ++ b) ++ c = a ++ (b ++ c) := by
  cases a
  cases b
  cases c
  exact congrArg String.mk (List.append_assoc _ _ _)

/-- Unfolding of `getInstalledDriverVersion` in terms of `driverArgv`
(helper). -/
theorem gidv_eq (osp : String) (env : Env) (od : String) :
    getInstalledDriverVersion osp env od =
      (match env.commandOutput (driverArgv osp od) with
       | none => none
       | some s => if s = "" then none else (jsSplit ' ' (jsTrim s))[1]?,
       [Effect.runCommand (driverArgv osp od)]) := rfl

/-- Unfolding of the Linux branch of `getInstalledBrowserVersion`
(helper). -/
theorem gibv_linux (env : Env) :
    getInstalledBrowserVersion "linux" env =
      (if jsTruthy (env.commandOutput linuxSnapArgv) then
        (Except.ok (jsFirstSpaceField (env.commandOutput linuxSnapArgv)),
         [Effect.runCommand linuxSnapArgv])
      else
        (Except.ok (jsFirstSpaceField (env.commandOutput linuxPathArgv)),
         [Effect.runCommand linuxSnapArgv, Effect.runCommand linuxPathArgv])) := rfl

/-- Unfolding of the macOS branch of `getInstalledBrowserVersion`
(helper). -/
theorem gibv_darwin (env : Env) :
    getInstalledBrowserVersion "darwin" env =
      (if jsTruthy (env.macAppVersion "Opera") then
        (Except.ok (env.macAppVersion "Opera"), [Effect.macAppVersion "Opera"])
      else
        (Except.ok (env.macAppVersion "Opera Stable"),
         [Effect.macAppVersion "Opera", Effect.macAppVersion "Opera Stable"])) := rfl

/-- Unfolding of the Windows branch of `getInstalledBrowserVersion`
(helper). -/
theorem gibv_win32 (env : Env) :
    getInstalledBrowserVersion "win32" env =
      (if jsTruthy (env.windowsExeVersion winPath1) then
        (Except.ok (env.windowsExeVersion winPath1), [Effect.windowsExeVersion winPath1])
      else if jsTruthy (env.windowsExeVersion winPath2) then
        (Except.ok (env.windowsExeVersion winPath2),
         [Effect.windowsExeVersion winPath1, Effect.windowsExeVersion winPath2])
      else if jsTruthy (env.windowsExeVersion (winPath3 env.username)) then
        (Except.ok (env.windowsExeVersion (winPath3 env.username)),
         [Effect.windowsExeVersion winPath1, Effect.windowsExeVersion winPath2,
          Effect.windowsExeVersion (winPath3 env.username)])
      else
        (Except.ok (env.windowsExeVersion "opera.exe"),
         [Effect.windowsExeVersion winPath1, Effect.windowsExeVersion winPath2,
          Effect.windowsExeVersion (winPath3 env.username),
          Effect.windowsExeVersion "opera.exe"])) := rfl

example : jsTrim " opera 1.2 " = "opera 1.2" := by decide
example : jsSplit ' ' "operadriver 114.0.5735.90 (abcd1234)" =
    ["operadriver", "114.0.5735.90", "(abcd1234)"] := by decide
example : replaceLeadingVDot "v114.0.5735.90" = "114.0.5735.90" := by decide
example : replaceLeadingVDot "v.114.0.5735.90" = "114.0.5735.90" := by decide
example : wsTokens "operadriver\t1.2.3" = ["operadriver", "1.2.3"] := by decide
example (dv : String) :
    (("A v." ++ dv) ++ "/operadriver_") ++ "linux64" ++ ".zip" =
      ("A v." ++ dv) ++ "/operadriver_linux64.zip" := by
  rw [string_append_assoc, string_append_assoc]
  rfl

/-- C1: for every driverVersion and outputDirectory, on Linux `install`
delegates to `InstallerUtils.installBinary` with the release archive URL
built from the `v.`-prefixed driverVersion, in-archive entry
`operadriver_linux64/operadriver`, output name `operadriver`, the given
outputDirectory and `isZip = true`; in particular for driverVersion
`114.0.5735.90` the URL is exactly the expected literal. -/
theorem c1_install_linux_delegates (dv od : String) :
    (install "linux" dv od =
      (Except.ok
        ⟨"https://github.com/operasoftware/operachromiumdriver/releases/download/v." ++
            dv ++ "/operadriver_linux64.zip",
          "operadriver_linux64/operadriver", "operadriver", od, true⟩,
       [Effect.installBinary
        ⟨"https://github.com/operasoftware/operachromiumdriver/releases/download/v." ++
            dv ++ "/operadriver_linux64.zip",
          "operadriver_linux64/operadriver", "operadriver", od, true⟩])) ∧
    (install "linux" "114.0.5735.90" od =
      (Except.ok
        ⟨"https://github.com/operasoftware/operachromiumdriver/releases/download/v.114.0.5735.90/operadriver_linux64.zip",
          "operadriver_linux64/operadriver", "operadriver", od, true⟩,
       [Effect.installBinary
        ⟨"https://github.com/operasoftware/operachromiumdriver/releases/download/v.114.0.5735.90/operadriver_linux64.zip",
          "operadriver_linux64/operadriver", "operadriver", od, true⟩])) := by
  have hurl :
      "https://github.com/operasoftware/operachromiumdriver/releases/download/v." ++
          dv ++ "/operadriver_" ++ "linux64" ++ ".zip" =
        "https://github.com/operasoftware/operachromiumdriver/releases/download/v." ++
          dv ++ "/operadriver_linux64.zip" := by
    rw [string_append_assoc, string_append_assoc]
    rfl
  constructor
  · show (Except.ok
        (⟨"https://github.com/operasoftware/operachromiumdriver/releases/download/v." ++
            dv ++ "/operadriver_" ++ "linux64" ++ ".zip",
          "operadriver_linux64/operadriver", "operadriver", od, true⟩ : InstallBinaryCall),
       [Effect.installBinary
        ⟨"https://github.com/operasoftware/operachromiumdriver/releases/download/v." ++
            dv ++ "/operadriver_" ++ "linux64" ++ ".zip",
          "operadriver_linux64/operadriver", "operadriver", od, true⟩]) = _
    rw [hurl]
  · rfl

/-- C2: `getBestDriverVersion` fetches the latest tag for the fixed
repository and returns it with a leading `v.` (or bare `v`) prefix
stripped; on the three example tags `v114.0.5735.90`, `v.114.0.5735.90`
and `114.0.5735.90` the result is `114.0.5735.90` in all cases. -/
theorem c2_best_version_strips_leading_v (env : Env) (bv : String) :
    ((getBestDriverVersion env bv).1 =
      (let tag := env.latestGitHubTag "operasoftware/operachromiumdriver"
       if tag.data.take 2 = ['v', '.'] then (⟨tag.data.drop 2⟩ : String)
       else if tag.data.take 1 = ['v'] then (⟨tag.data.drop 1⟩ : String)
       else tag)) ∧
    (getBestDriverVersion
        { emptyEnv with latestGitHubTag := fun _ => "v114.0.5735.90" } bv).1 =
      "114.0.5735.90" ∧
    (getBestDriverVersion
        { emptyEnv with latestGitHubTag := fun _ => "v.114.0.5735.90" } bv).1 =
      "114.0.5735.90" ∧
    (getBestDriverVersion
        { emptyEnv with latestGitHubTag := fun _ => "114.0.5735.90" } bv).1 =
      "114.0.5735.90" :=
  ⟨rfl, rfl, rfl, rfl⟩

/-- C5: for a host OS outside {darwin, linux, win32}, both
`getInstalledBrowserVersion` and `install` throw the unsupported-platform
error, with an empty effect trace: no probe, no network request and no
filesystem write happens before the throw. -/
theorem c5_unsupported_platform_throws (osp : String) (env : Env) (dv od : String)
    (h1 : osp ≠ "darwin") (h2 : osp ≠ "linux") (h3 : osp ≠ "win32") :
    getInstalledBrowserVersion osp env =
      (Except.error ("Unsupported platform: " ++ osp), []) ∧
    install osp dv od = (Except.error ("Unsupported platform: " ++ osp), []) := by
  constructor
  · unfold getInstalledBrowserVersion
    rw [if_neg h1, if_neg h2, if_neg h3]
  · unfold install
    rw [if_neg h2, if_neg h1, if_neg h3]

/-- C5 witness: both methods throw on the concrete platform `freebsd`
without performing any effect. -/
theorem c5_witness :
    getInstalledBrowserVersion "freebsd" emptyEnv =
      (Except.error ("Unsupported platform: " ++ "freebsd"), []) ∧
    install "freebsd" "1.0" "out" =
      (Except.error ("Unsupported platform: " ++ "freebsd"), []) :=
  c5_unsupported_platform_throws "freebsd" emptyEnv "1.0" "out"
    (by decide) (by decide) (by decide)

/-- C9: the result of `getBestDriverVersion` is fully determined by the
fetched latest tag of the fixed repository and is independent of the
`browserVersion` argument. -/
theorem c9_best_version_ignores_browser_version (env1 env2 : Env) (bv1 bv2 : String)
    (h : env1.latestGitHubTag "operasoftware/operachromiumdriver" =
        env2.latestGitHubTag "operasoftware/operachromiumdriver") :
    (getBestDriverVersion env1 bv1).1 = (getBestDriverVersion env2 bv2).1 := by
  simp only [getBestDriverVersion, h]

/-- C9 witness: two environments that agree on the fetched tag but differ
elsewhere, queried with different browser versions, give the same
result. -/
theorem c9_witness :
    (getBestDriverVersion
        { emptyEnv with latestGitHubTag := fun _ => "v1.2.3" } "100.0").1 =
    (getBestDriverVersion
        { emptyEnv with latestGitHubTag := fun _ => "v1.2.3", username := "alice" }
        "101.5").1 :=
  c9_best_version_ignores_browser_version _ _ _ _ rfl

/-- C6: for each supported host OS, `install` resolves exactly one
platform tag — linux64 for Linux, mac64 for macOS, win64 for Windows (with
the binary name and output name suffixed `.exe`) — and never reaches the
unsupported-platform error branch. -/
theorem c6_install_supported_platforms (dv od : String) :
    (install "linux" dv od =
      (Except.ok
        ⟨"https://github.com/operasoftware/operachromiumdriver/releases/download/v." ++
            dv ++ "/operadriver_linux64.zip",
          "operadriver_linux64/operadriver", "operadriver", od, true⟩,
       [Effect.installBinary
        ⟨"https://github.com/operasoftware/operachromiumdriver/releases/download/v." ++
            dv ++ "/operadriver_linux64.zip",
          "operadriver_linux64/operadriver", "operadriver", od, true⟩])) ∧
    (install "darwin" dv od =
      (Except.ok
        ⟨"https://github.com/operasoftware/operachromiumdriver/releases/download/v." ++
            dv ++ "/operadriver_mac64.zip",
          "operadriver_mac64/operadriver", "operadriver", od, true⟩,
       [Effect.installBinary
        ⟨"https://github.com/operasoftware/operachromiumdriver/releases/download/v." ++
            dv ++ "/operadriver_mac64.zip",
          "operadriver_mac64/operadriver", "operadriver", od, true⟩])) ∧
    (install "win32" dv od =
      (Except.ok
        ⟨"https://github.com/operasoftware/operachromiumdriver/releases/download/v." ++
            dv ++ "/operadriver_win64.zip",
          "operadriver_win64/operadriver.exe", "operadriver.exe", od, true⟩,
       [Effect.installBinary
        ⟨"https://github.com/operasoftware/operachromiumdriver/releases/download/v." ++
            dv ++ "/operadriver_win64.zip",
          "operadriver_win64/operadriver.exe", "operadriver.exe", od, true⟩])) := by
  refine ⟨?_, ?_, ?_⟩
  · have hurl :
        "https://github.com/operasoftware/operachromiumdriver/releases/download/v." ++
            dv ++ "/operadriver_" ++ "linux64" ++ ".zip" =
          "https://github.com/operasoftware/operachromiumdriver/releases/download/v." ++
            dv ++ "/operadriver_linux64.zip" := by
      rw [string_append_assoc, string_append_assoc]
      rfl
    show (Except.ok
        (⟨"https://github.com/operasoftware/operachromiumdriver/releases/download/v." ++
            dv ++ "/operadriver_" ++ "linux64" ++ ".zip",
          "operadriver_linux64/operadriver", "operadriver", od, true⟩ : InstallBinaryCall),
       [Effect.installBinary
        ⟨"https://github.com/operasoftware/operachromiumdriver/releases/download/v." ++
            dv ++ "/operadriver_" ++ "linux64" ++ ".zip",
          "operadriver_linux64/operadriver", "operadriver", od, true⟩]) = _
    rw [hurl]
  · have hurl :
        "https://github.com/operasoftware/operachromiumdriver/releases/download/v." ++
            dv ++ "/operadriver_" ++ "mac64" ++ ".zip" =
          "https://github.com/operasoftware/operachromiumdriver/releases/download/v." ++
            dv ++ "/operadriver_mac64.zip" := by
      rw [string_append_assoc, string_append_assoc]
      rfl
    show (Except.ok
        (⟨"https://github.com/operasoftware/operachromiumdriver/releases/download/v." ++
            dv ++ "/operadriver_" ++ "mac64" ++ ".zip",
          "operadriver_mac64/operadriver", "operadriver", od, true⟩ : InstallBinaryCall),
       [Effect.installBinary
        ⟨"https://github.com/operasoftware/operachromiumdriver/releases/download/v." ++
            dv ++ "/operadriver_" ++ "mac64" ++ ".zip",
          "operadriver_mac64/operadriver", "operadriver", od, true⟩]) = _
    rw [hurl]
  · have hurl :
        "https://github.com/operasoftware/operachromiumdriver/releases/download/v." ++
            dv ++ "/operadriver_" ++ "win64" ++ ".zip" =
          "https://github.com/operasoftware/operachromiumdriver/releases/download/v." ++
            dv ++ "/operadriver_win64.zip" := by
      rw [string_append_assoc, string_append_assoc]
      rfl
    show (Except.ok
        (⟨"https://github.com/operasoftware/operachromiumdriver/releases/download/v." ++
            dv ++ "/operadriver_" ++ "win64" ++ ".zip",
          "operadriver_win64/operadriver.exe", "operadriver.exe", od, true⟩ : InstallBinaryCall),
       [Effect.installBinary
        ⟨"https://github.com/operasoftware/operachromiumdriver/releases/download/v." ++
            dv ++ "/operadriver_" ++ "win64" ++ ".zip",
          "operadriver_win64/operadriver.exe", "operadriver.exe", od, true⟩]) = _
    rw [hurl]

/-- C8: on macOS, `getInstalledBrowserVersion` tries the bundle names
`Opera` then `Opera Stable` in order; a version from the first candidate
is returned without consulting the second, a missing first candidate falls
through to the second (whose result is returned as is), and two absent
candidates give an absent overall result. -/
theorem c8_mac_bundle_candidates (env : Env) :
    (jsTruthy (env.macAppVersion "Opera") = true →
      getInstalledBrowserVersion "darwin" env =
        (Except.ok (env.macAppVersion "Opera"), [Effect.macAppVersion "Opera"]) ∧
      Effect.macAppVersion "Opera Stable" ∉ (getInstalledBrowserVersion "darwin" env).2) ∧
    (env.macAppVersion "Opera" = none →
      getInstalledBrowserVersion "darwin" env =
        (Except.ok (env.macAppVersion "Opera Stable"),
         [Effect.macAppVersion "Opera", Effect.macAppVersion "Opera Stable"])) ∧
    (env.macAppVersion "Opera" = none → env.macAppVersion "Opera Stable" = none →
      (getInstalledBrowserVersion "darwin" env).1 = Except.ok none) := by
  refine ⟨fun h1 => ?_, fun h1 => ?_, fun h1 h2 => ?_⟩
  · have heq : getInstalledBrowserVersion "darwin" env =
        (Except.ok (env.macAppVersion "Opera"), [Effect.macAppVersion "Opera"]) := by
      rw [gibv_darwin, if_pos h1]
    refine ⟨heq, ?_⟩
    rw [heq]
    show Effect.macAppVersion "Opera Stable" ∉ [Effect.macAppVersion "Opera"]
    decide
  · rw [gibv_darwin, h1]
    rfl
  · rw [gibv_darwin, h1, h2]
    rfl

/-- C8 witness: a macOS environment in which the bundle `Opera` reports a
version; it is returned and `Opera Stable` is never consulted. -/
theorem c8_witness :
    getInstalledBrowserVersion "darwin" c8WitnessEnv =
      (Except.ok (c8WitnessEnv.macAppVersion "Opera"), [Effect.macAppVersion "Opera"]) ∧
    Effect.macAppVersion "Opera Stable" ∉
      (getInstalledBrowserVersion "darwin" c8WitnessEnv).2 :=
  (c8_mac_bundle_candidates c8WitnessEnv).1 (by decide)

/-- C7: on Windows, `getInstalledBrowserVersion` probes the three
well-known executable paths in order (two fixed Program Files paths, then
a per-user path interpolating the OS username), returns the first version
found, and only when all three probes are absent falls back to resolving
`opera.exe` via PATH, returning that probe's result as is. -/
theorem c7_windows_probe_order (env : Env) :
    (jsTruthy (env.windowsExeVersion winPath1) = true →
      getInstalledBrowserVersion "win32" env =
        (Except.ok (env.windowsExeVersion winPath1),
         [Effect.windowsExeVersion winPath1])) ∧
    (env.windowsExeVersion winPath1 = none →
      jsTruthy (env.windowsExeVersion winPath2) = true →
      getInstalledBrowserVersion "win32" env =
        (Except.ok (env.windowsExeVersion winPath2),
         [Effect.windowsExeVersion winPath1, Effect.windowsExeVersion winPath2])) ∧
    (env.windowsExeVersion winPath1 = none → env.windowsExeVersion winPath2 = none →
      jsTruthy (env.windowsExeVersion (winPath3 env.username)) = true →
      getInstalledBrowserVersion "win32" env =
        (Except.ok (env.windowsExeVersion (winPath3 env.username)),
         [Effect.windowsExeVersion winPath1, Effect.windowsExeVersion winPath2,
          Effect.windowsExeVersion (winPath3 env.username)])) ∧
    (env.windowsExeVersion winPath1 = none → env.windowsExeVersion winPath2 = none →
      env.windowsExeVersion (winPath3 env.username) = none →
      getInstalledBrowserVersion "win32" env =
        (Except.ok (env.windowsExeVersion "opera.exe"),
         [Effect.windowsExeVersion winPath1, Effect.windowsExeVersion winPath2,
          Effect.windowsExeVersion (winPath3 env.username),
          Effect.windowsExeVersion "opera.exe"])) := by
  refine ⟨fun h1 => ?_, fun h1 h2 => ?_, fun h1 h2 h3 => ?_, fun h1 h2 h3 => ?_⟩
  · rw [gibv_win32, if_pos h1]
  · rw [gibv_win32, h1, if_pos h2]
    rfl
  · rw [gibv_win32, h1, h2, if_pos h3]
    rfl
  · rw [gibv_win32, h1, h2, h3]
    rfl

/-- C7 witness: an environment in which only the second well-known path
has a version; it is returned after probing the first two paths only. -/
theorem c7_witness :
    getInstalledBrowserVersion "win32" c7WitnessEnv =
      (Except.ok (c7WitnessEnv.windowsExeVersion winPath2),
       [Effect.windowsExeVersion winPath1, Effect.windowsExeVersion winPath2]) :=
  (c7_windows_probe_order c7WitnessEnv).2.1 (by decide) (by decide)

/-- C3 counterexample: when the driver's `--version` output separates its
fields with a tab, the code returns an absent result, while the second
whitespace-delimited token of the trimmed output is `1.2.3`; so
`getInstalledDriverVersion` does not return the second
whitespace-delimited token of the output. -/
theorem c3_counterexample :
    (getInstalledDriverVersion "linux" c3CexEnv "out").1 = none ∧
    (wsTokens (jsTrim "operadriver\t1.2.3"))[1]? = some "1.2.3" ∧
    (none : Option String) ≠ some "1.2.3" := by
  decide

/-- C3 (amended): `getInstalledDriverVersion` runs exactly the command
`<outputDirectory>/operadriver` (with `.exe` appended on Windows) with
argument `--version`; a missing command, a failing command or empty
output gives an absent result, and non-empty output gives the field at
index 1 of the trimmed output split on single space characters. -/
theorem c3_driver_version_parsing (osp : String) (env : Env) (od : String) :
    ((getInstalledDriverVersion osp env od).2 =
      [Effect.runCommand (driverArgv osp od)]) ∧
    (env.commandOutput (driverArgv osp od) = none →
      (getInstalledDriverVersion osp env od).1 = none) ∧
    (env.commandOutput (driverArgv osp od) = some "" →
      (getInstalledDriverVersion osp env od).1 = none) ∧
    (∀ s, env.commandOutput (driverArgv osp od) = some s → s ≠ "" →
      (getInstalledDriverVersion osp env od).1 = (jsSplit ' ' (jsTrim s))[1]?) := by
  refine ⟨?_, fun h => ?_, fun h => ?_, fun s h hs => ?_⟩
  · rw [gidv_eq]
  · rw [gidv_eq, h]
  · rw [gidv_eq, h]
    rfl
  · rw [gidv_eq, h]
    simp [hs]

/-- C3 witness: on the documented output shape
`operadriver 114.0.5735.90 (abcd1234)` the amended parsing theorem yields
the second space-delimited field `114.0.5735.90`. -/
theorem c3_witness :
    (getInstalledDriverVersion "linux" c3WitnessEnv "out").1 = some "114.0.5735.90" := by
  have h := (c3_driver_version_parsing "linux" c3WitnessEnv "out").2.2.2
    "operadriver 114.0.5735.90 (abcd1234)" (by decide) (by decide)
  rw [h]
  decide

/-- C4 counterexample: when the Snap probe's output separates its fields
with a tab, the Linux branch returns the whole output, while its first
whitespace-delimited token is `Opera`; so the successful probe's output is
not reduced to its first whitespace-delimited token. -/
theorem c4_counterexample :
    (getInstalledBrowserVersion "linux" c4CexEnv).1 =
      Except.ok (some "Opera\t114.0.5735.90") ∧
    (wsTokens (jsTrim "Opera\t114.0.5735.90"))[0]? = some "Opera" ∧
    ("Opera\t114.0.5735.90" : String) ≠ "Opera" :=
  ⟨rfl, by decide, by decide⟩

/-- C4 (amended): on Linux, `getInstalledBrowserVersion` probes
`/snap/bin/opera --version` first; non-empty output from it is trimmed
and reduced to its first space-delimited field without ever invoking the
PATH command; if the Snap probe is absent, `opera --version` via PATH is
tried next and treated the same way; if both probes are absent, the
result is absent and no error is raised. -/
theorem c4_linux_probe_order (env : Env) :
    (∀ s, env.commandOutput linuxSnapArgv = some s → s ≠ "" →
      getInstalledBrowserVersion "linux" env =
        (Except.ok (some ((jsSplit ' ' (jsTrim s)).headD "")),
         [Effect.runCommand linuxSnapArgv]) ∧
      Effect.runCommand linuxPathArgv ∉ (getInstalledBrowserVersion "linux" env).2) ∧
    (env.commandOutput linuxSnapArgv = none →
      (getInstalledBrowserVersion "linux" env).2 =
        [Effect.runCommand linuxSnapArgv, Effect.runCommand linuxPathArgv]) ∧
    (env.commandOutput linuxSnapArgv = none →
      ∀ s, env.commandOutput linuxPathArgv = some s → s ≠ "" →
      (getInstalledBrowserVersion "linux" env).1 =
        Except.ok (some ((jsSplit ' ' (jsTrim s)).headD ""))) ∧
    (env.commandOutput linuxSnapArgv = none →
      env.commandOutput linuxPathArgv = none →
      (getInstalledBrowserVersion "linux" env).1 = Except.ok none) := by
  refine ⟨fun s h hs => ?_, fun h => ?_, fun h s hp hs => ?_, fun h hp => ?_⟩
  · have heq : getInstalledBrowserVersion "linux" env =
        (Except.ok (some ((jsSplit ' ' (jsTrim s)).headD "")),
         [Effect.runCommand linuxSnapArgv]) := by
      rw [gibv_linux, h]
      simp [jsTruthy, jsFirstSpaceField, hs]
    refine ⟨heq, ?_⟩
    rw [heq]
    show Effect.runCommand linuxPathArgv ∉ [Effect.runCommand linuxSnapArgv]
    decide
  · rw [gibv_linux, h]
    rfl
  · rw [gibv_linux, h, hp]
    simp [jsTruthy, jsFirstSpaceField, hs]
  · rw [gibv_linux, h, hp]
    rfl

/-- C4 witness: a Snap probe that reports `114.0.5735.90` is returned
as the browser version and the PATH probe is never invoked. -/
theorem c4_witness :
    getInstalledBrowserVersion "linux" c4WitnessEnv =
      (Except.ok (some "114.0.5735.90"), [Effect.runCommand linuxSnapArgv]) := by
  have h := ((c4_linux_probe_order c4WitnessEnv).1 "114.0.5735.90"
    (by decide) (by decide)).1
  rw [h]
  rfl

/-- Splitting a character list that contains no separator yields the whole
list as the single chunk (helper). -/
theorem splitPredList_of_all_false (p : Char → Bool) (l : List Char)
    (h : ∀ x ∈ l, p x = false) : splitPredList p l = [l] := by
  induction l with
  | nil => rfl
  | cons x xs ih =>
    have hx : p x = false := h x (List.mem_cons_self x xs)
    have hxs := ih (fun y hy => h y (List.mem_cons_of_mem x hy))
    simp [splitPredList, hxs, hx]

/-- C10: if the driver's `--version` command produces non-empty output
whose trimmed text contains no space character, `getInstalledDriverVersion`
returns an absent result (the out-of-range index-1 lookup yields no
value), with no error and without returning the first token. -/
theorem c10_single_token_gives_absent (osp : String) (env : Env) (od : String)
    (s : String) (h : env.commandOutput (driverArgv osp od) = some s)
    (hne : s ≠ "") (hsp : ' ' ∉ (jsTrim s).data) :
    (getInstalledDriverVersion osp env od).1 = none := by
  have hall : ∀ x ∈ (jsTrim s).data, (x == ' ') = false := by
    intro x hx
    have hxne : x ≠ ' ' := fun e => hsp (e ▸ hx)
    simp [hxne]
  have hsplit : jsSplit ' ' (jsTrim s) = [⟨(jsTrim s).data⟩] := by
    unfold jsSplit
    rw [splitPredList_of_all_false _ _ hall]
    rfl
  rw [gidv_eq, h]
  simp [hne, hsplit]

/-- C10 witness: single-token output `operadriver` yields an absent
result. -/
theorem c10_witness :
    (getInstalledDriverVersion "linux" c10WitnessEnv "out").1 = none :=
  c10_single_token_gives_absent "linux" c10WitnessEnv "out" "operadriver"
    (by decide) (by decide) (by decide)
